import Mathlib

/-!
Verification development for the taskl client library.

The Python source is embedded shallowly: `Task.__init__` becomes the pure
function `mkTask` over an explicit `RawRecord` of optional raw fields,
subprocess-driven operations become functions taking the external process's
exit code, parsed stdout and stderr as explicit inputs, and Python exceptions
become the `PyErr` error type threaded through `Except`.
-/

namespace Taskl

/-- Model of a Python `datetime` value as produced by `datetime.fromisoformat`
on the timestamp strings this client encounters (no sub-second precision, the
only time zone being UTC). -/
structure PyDateTime where
  year : Nat
  month : Nat
  day : Nat
  hour : Nat
  minute : Nat
  second : Nat
  utc : Bool
deriving DecidableEq, Repr, Inhabited

def isLeap (y : Nat) : Bool :=
  (y % 4 = 0 && !(y % 100 = 0)) || y % 400 = 0

def daysInMonth (y m : Nat) : Nat :=
  if m = 2 then (if isLeap y then 29 else 28)
  else if m = 4 ∨ m = 6 ∨ m = 9 ∨ m = 11 then 30
  else 31

def digitVal (c : Char) : Option Nat :=
  if c.isDigit then some (c.toNat - 48) else none

def d2 (a b : Char) : Option Nat :=
  match digitVal a, digitVal b with
  | some x, some y => some (10 * x + y)
  | _, _ => none

def d4 (a b c d : Char) : Option Nat :=
  match d2 a b, d2 c d with
  | some x, some y => some (100 * x + y)
  | _, _ => none

/-- Time-zone suffix accepted by `datetime.fromisoformat` on the inputs in
scope: nothing (naive), a literal Z, or the explicit UTC offset. -/
def parseTZ : List Char → Option Bool
  | [] => some false
  | ['Z'] => some true
  | ['+', '0', '0', ':', '0', '0'] => some true
  | _ => none

def mkDT (y mo da h mi s : Nat) (utc : Bool) : Option PyDateTime :=
  if 1 ≤ mo ∧ mo ≤ 12 ∧ 1 ≤ da ∧ da ≤ daysInMonth y mo ∧ h < 24 ∧ mi < 60 ∧ s < 60 then
    some (PyDateTime.mk y mo da h mi s utc)
  else none

def parseTimeExt (y mo da : Nat) : List Char → Option PyDateTime
  | h1 :: h2 :: ':' :: m1 :: m2 :: ':' :: s1 :: s2 :: rest =>
    match d2 h1 h2, d2 m1 m2, d2 s1 s2, parseTZ rest with
    | some h, some mi, some s, some utc => mkDT y mo da h mi s utc
    | _, _, _, _ => none
  | _ => none

def parseTimeBasic (y mo da : Nat) : List Char → Option PyDateTime
  | h1 :: h2 :: m1 :: m2 :: s1 :: s2 :: rest =>
    match d2 h1 h2, d2 m1 m2, d2 s1 s2, parseTZ rest with
    | some h, some mi, some s, some utc => mkDT y mo da h mi s utc
    | _, _, _, _ => none
  | _ => none

/-- Model of `datetime.fromisoformat` on the timestamp encodings this client
meets: the extended format YYYY-MM-DD optionally followed by a T or space and
HH:MM:SS with an optional UTC suffix, and the collaborator's basic format
YYYYMMDDTHHMMSS with an optional UTC suffix. Returns `none` where Python
raises ValueError (in particular on the empty string and on out-of-range
calendar components). -/
def fromIso (s : String) : Option PyDateTime :=
  match s.toList with
  | y1 :: y2 :: y3 :: y4 :: '-' :: m1 :: m2 :: '-' :: da1 :: da2 :: rest =>
    match d4 y1 y2 y3 y4, d2 m1 m2, d2 da1 da2 with
    | some y, some mo, some da =>
      match rest with
      | [] => mkDT y mo da 0 0 0 false
      | 'T' :: tr => parseTimeExt y mo da tr
      | ' ' :: tr => parseTimeExt y mo da tr
      | _ => none
    | _, _, _ => none
  | y1 :: y2 :: y3 :: y4 :: m1 :: m2 :: da1 :: da2 :: 'T' :: tr =>
    match d4 y1 y2 y3 y4, d2 m1 m2, d2 da1 da2 with
    | some y, some mo, some da => parseTimeBasic y mo da tr
    | _, _, _ => none
  | _ => none

def pad2 (n : Nat) : String :=
  if n < 10 then ("0") ++ toString n else toString n

def pad4 (n : Nat) : String :=
  if n < 10 then ("000") ++ toString n
  else if n < 100 then ("00") ++ toString n
  else if n < 1000 then ("0") ++ toString n
  else toString n

/-- Model of `datetime.isoformat` on the values `fromIso` produces. -/
def dtIso (d : PyDateTime) : String :=
  pad4 d.year ++ ("-") ++ pad2 d.month ++ ("-") ++ pad2 d.day ++ ("T") ++
    pad2 d.hour ++ (":") ++ pad2 d.minute ++ (":") ++ pad2 d.second ++
    (if d.utc then ("+00:00") else (""))

/-- Strip one optional leading sign character. -/
def stripSign : List Char → List Char
  | '+' :: r => r
  | '-' :: r => r
  | l => l

/-- Strip surrounding whitespace from a character list. -/
def trimWs (l : List Char) : List Char :=
  ((l.dropWhile Char.isWhitespace).reverse.dropWhile Char.isWhitespace).reverse

/-- Model of whether Python `int(s)` succeeds on a string: optional
surrounding whitespace, an optional sign, then one or more decimal digits. -/
def pyIntParseable (s : String) : Bool :=
  !(stripSign (trimWs s.toList)).isEmpty &&
    (stripSign (trimWs s.toList)).all Char.isDigit

/-- The numeric value of a decimal digit run, as Python `int` computes it. -/
def digitsVal (l : List Char) : Nat :=
  l.foldl (fun n c => n * 10 + (c.toNat - 48)) 0

def runFlush (acc : List Char) (rest : List String) : List String :=
  match acc with
  | [] => rest
  | _ => String.mk acc.reverse :: rest

def digitRunsGo : List Char → List Char → List String
  | [], acc => runFlush acc []
  | c :: cs, acc =>
    if c.isDigit then digitRunsGo cs (c :: acc)
    else runFlush acc (digitRunsGo cs [])

/-- Model of `re.findall` with the digit-run pattern used in `Task.add`: the
maximal runs of decimal digits of the string, in order. -/
def digitRuns (s : String) : List String := digitRunsGo s.toList []

/-- The Python exceptions the embedded code can raise. The first four are the
library's own classes from exceptions.py; the last four are the builtin
exceptions the code can let escape. Each library error carries the stderr
text it was raised with. -/
inductive PyErr where
  | taskCommandNotFound (stderr : String)
  | errorRunningTaskCommand (stderr : String)
  | noTaskGiven (stderr : String)
  | errorAddingNewTask (stderr : String)
  | typeError
  | valueError
  | indexError
  | attributeError
deriving DecidableEq, Repr

/-- One raw annotation mapping from the collaborator's export, with the keys
read by `TaskNote.__init__`. -/
structure Annot where
  description : Option String
  entry : Option String
deriving DecidableEq, Repr

/-- One raw record of the collaborator's export, holding every field name
`Task.__init__` reads (`none` = key absent). The raw `id` is an integer in
export data but the constructor also accepts a string identifier, so it is
modeled as `Int ⊕ String`; `wait` appears in export records but is never read
by the code. -/
structure RawRecord where
  description : Option String
  project : Option String
  annotations : Option (List Annot)
  priority : Option String
  urgency : Option String
  start : Option String
  end_ : Option String
  status : Option String
  entry : Option String
  modified : Option String
  due : Option String
  uuid : Option String
  recur : Option String
  rtype : Option String
  mask : Option String
  imask : Option String
  parent : Option String
  id : Option (Int ⊕ String)
  wait : Option String
deriving DecidableEq, Repr

/-- The raw record with every key absent. -/
def RawRecord.empty : RawRecord :=
  RawRecord.mk none none none none none none none none none none none none
    none none none none none none none

/-- Embedding of the `TaskNote` entity from tasknote.py. -/
structure TaskNote where
  task_id : Option (Int ⊕ String)
  description : Option String
  entry : PyDateTime
deriving DecidableEq, Repr

/-- Embedding of the `Task` entity's attributes after `Task.__init__` ran.
`start`, `end_` and `due` hold either the parsed datetime or the raw string
kept verbatim (the latter only for a falsy empty string, or for `due` also on
parse failure); `entry` and `modified` are `none` exactly when the Python
attribute was never assigned, so that reading it raises AttributeError. -/
structure Task where
  description : String
  project : Option String
  annotations : Option (List TaskNote)
  priority : Option String
  urgency : Option String
  start : Option (PyDateTime ⊕ String)
  end_ : Option (PyDateTime ⊕ String)
  status : Option String
  entry : Option PyDateTime
  modified : Option PyDateTime
  due : Option (PyDateTime ⊕ String)
  uuid : Option String
  recur : Option String
  rtype : Option String
  mask : Option String
  imask : Option String
  parent : Option String
  id : Option (Int ⊕ String)
  active : Bool
deriving DecidableEq, Repr, Inhabited

/-- Parsing of the `start` and `end` fields: `if self.start: self.start =
datetime.fromisoformat(self.start)`. An absent field stays None; a falsy
empty string is kept verbatim; otherwise a parse failure raises ValueError. -/
def parseDateField : Option String → Except PyErr (Option (PyDateTime ⊕ String))
  | none => .ok none
  | some s =>
    if s = ("") then .ok (some (.inr s))
    else match fromIso s with
      | some d => .ok (some (.inl d))
      | none => .error .valueError

/-- Parsing of the `entry` and `modified` fields: the attribute is assigned
only when the raw value is truthy, and a parse failure raises ValueError. -/
def parseStamp : Option String → Except PyErr (Option PyDateTime)
  | none => .ok none
  | some s =>
    if s = ("") then .ok none
    else match fromIso s with
      | some d => .ok (some d)
      | none => .error .valueError

/-- Parsing of the `due` field: the parse is wrapped in try/except ValueError,
so an unparseable value is retained verbatim (relative keywords such as
tomorrow are allowed when adding tasks). -/
def parseDue : Option String → Option (PyDateTime ⊕ String)
  | none => none
  | some s =>
    if s = ("") then some (.inr s)
    else match fromIso s with
      | some d => some (.inl d)
      | none => some (.inr s)

/-- Python truthiness of the raw `id` value: None, the integer 0 and the
empty string are falsy. -/
def pyFalsyId : Option (Int ⊕ String) → Bool
  | none => true
  | some (.inl n) => n = 0
  | some (.inr s) => s = ("")

/-- The identifier resolution in `Task.__init__`: `self.id = kwargs.get('id')`
followed by `if not self.id: self.id = kwargs.get('uuid')`. -/
def resolveId (id? : Option (Int ⊕ String)) (uuid? : Option String) :
    Option (Int ⊕ String) :=
  if pyFalsyId id? then uuid?.map .inr else id?

/-- The `active` computation in `Task.__init__`: `int(self.id)` succeeds on an
integer and on an integer-parseable string; TypeError on None and ValueError
on any other string are swallowed, leaving `active` False. -/
def pyActive : Option (Int ⊕ String) → Bool
  | none => false
  | some (.inl _) => true
  | some (.inr s) => pyIntParseable s

/-- Embedding of `TaskNote.__init__`: `fromisoformat(annotation.get('entry'))`
raises TypeError when the key is absent and ValueError when unparseable. -/
def mkTaskNote (tid : Option (Int ⊕ String)) (a : Annot) : Except PyErr TaskNote :=
  match a.entry with
  | none => .error .typeError
  | some s =>
    match fromIso s with
    | none => .error .valueError
    | some d => .ok (TaskNote.mk tid a.description d)

/-- The annotation conversion at the end of `Task.__init__`: a truthy list is
mapped through `TaskNote`, an absent or empty value is kept as is. -/
def mkAnnotations (tid : Option (Int ⊕ String)) :
    Option (List Annot) → Except PyErr (Option (List TaskNote))
  | none => .ok none
  | some l =>
    if l.isEmpty then .ok (some [])
    else (l.mapM (mkTaskNote tid)).map some

/-- Embedding of `Task.__init__` from task/task.py: a missing description is
the TypeError of a missing required argument; the date fields are parsed in
source order; the identifier is resolved from `id` with fallback to `uuid`;
annotations are wrapped last. -/
def mkTask (r : RawRecord) : Except PyErr Task :=
  match r.description with
  | none => .error .typeError
  | some desc =>
    match parseDateField r.start with
    | .error e => .error e
    | .ok startV =>
      match parseDateField r.end_ with
      | .error e => .error e
      | .ok endV =>
        match parseStamp r.entry with
        | .error e => .error e
        | .ok entryV =>
          match parseStamp r.modified with
          | .error e => .error e
          | .ok modV =>
            match mkAnnotations (resolveId r.id r.uuid) r.annotations with
            | .error e => .error e
            | .ok annV =>
              .ok (Task.mk desc r.project annV r.priority r.urgency startV endV
                r.status entryV modV (parseDue r.due) r.uuid r.recur r.rtype
                r.mask r.imask r.parent (resolveId r.id r.uuid)
                (pyActive (resolveId r.id r.uuid)))

/-- Reading the `entry` attribute of a constructed task: AttributeError when
`Task.__init__` never assigned it. -/
def getattrEntry (t : Task) : Except PyErr PyDateTime :=
  match t.entry with
  | none => .error .attributeError
  | some d => .ok d

/-- Reading the `modified` attribute of a constructed task. -/
def getattrModified (t : Task) : Except PyErr PyDateTime :=
  match t.modified with
  | none => .error .attributeError
  | some d => .ok d

/-- Boolean success test on an embedded computation. -/
def pyOk : Except PyErr Task → Bool
  | .ok _ => true
  | .error _ => false

/-- The task a successful construction produces (defaulted on failure, used
only where success is proved). -/
def okTask (r : RawRecord) : Task :=
  match mkTask r with
  | .ok t => t
  | .error _ => default

/-- Outcome of one external `run(...)` call; stdout is given already split
into the parsed record list where the code feeds it to `ast.literal_eval`. -/
structure ProcResult where
  returncode : Int
  stdout : String
  stderr : String
deriving DecidableEq, Repr

/-- Embedding of `TaskWarrior.task_export` given the process outcome, with
stdout modeled by its parsed record list: nonzero exit is classified 127 →
TaskCommandNotFound, otherwise ErrorRunningTaskCommand; on success a list of
at least one record is returned as is and anything shorter becomes None. -/
def task_export (returncode : Int) (records : List RawRecord) (stderr : String) :
    Except PyErr (Option (List RawRecord)) :=
  if returncode = 0 then
    if records.length ≥ 1 then .ok (some records) else .ok none
  else if returncode = 127 then .error (.taskCommandNotFound stderr)
  else .error (.errorRunningTaskCommand stderr)

/-- The record loop of `TaskWarrior.get_all_tasks`, returning the pair of the
`all_tasks` list and the `working_set` list it appends to. A record whose
status is deleted is skipped unless deleted tasks were requested; a record
whose raw id differs from the integer 0 (Python `not task_id == 0`, true also
when the key is absent) is appended to the working set; construction raises
out of the loop at the first failing record. -/
def gatLoop (incl : Bool) : List RawRecord → Except PyErr (List Task × List Task)
  | [] => .ok ([], [])
  | r :: rest =>
    if incl = false ∧ r.status = some ("deleted") then gatLoop incl rest
    else
      match mkTask r with
      | .error e => .error e
      | .ok t =>
        match gatLoop incl rest with
        | .error e => .error e
        | .ok (allT, ws) =>
          if r.id = some (.inl 0) then .ok (t :: allT, ws)
          else .ok (t :: allT, t :: ws)

/-- Embedding of `TaskWarrior.get_all_tasks` given the export process
outcome: it calls `task_export` and then takes `len(data)`, which raises
TypeError when the export returned None. Returns `(all_tasks, working_set)`. -/
def get_all_tasks (returncode : Int) (records : List RawRecord) (stderr : String)
    (include_deleted : Bool) : Except PyErr (List Task × List Task) :=
  match task_export returncode records stderr with
  | .error e => .error e
  | .ok none => .error .typeError
  | .ok (some l) => gatLoop include_deleted l

/-- Embedding of `TaskWarrior.complete_task` given the process outcome: exit
127 raises TaskCommandNotFound and exit 1 raises NoTaskGiven, every other
exit code falls through to `return True`. -/
def complete_task (returncode : Int) (stderr : String) : Except PyErr Bool :=
  if returncode = 0 then .ok true
  else if returncode = 127 then .error (.taskCommandNotFound stderr)
  else if returncode = 1 then .error (.noTaskGiven stderr)
  else .ok true

/-- Embedding of `TaskWarrior.delete_task`, whose body classifies the exit
code identically to `complete_task`. -/
def delete_task (returncode : Int) (stderr : String) : Except PyErr Bool :=
  if returncode = 0 then .ok true
  else if returncode = 127 then .error (.taskCommandNotFound stderr)
  else if returncode = 1 then .error (.noTaskGiven stderr)
  else .ok true

/-- Embedding of `Task.add` from the add-phase process outcome onward, given
also the re-fetch export process outcome (exit code, parsed stdout records,
stderr). The add-phase stdout is scanned for digit runs; `task_id[0]` on an
empty scan raises IndexError, which the surrounding `except ValueError` does
not catch (and `int` on a digit run never raises ValueError, so the
ErrorAddingNewTask branch there is unreachable). The re-fetch returns the
constructed task only when exactly one record was exported. -/
def task_add (addRes : ProcResult) (exportRC : Int) (exportData : List RawRecord)
    (exportStderr : String) : Except PyErr Task :=
  if addRes.returncode = 0 then
    match digitRuns addRes.stdout with
    | [] => .error .indexError
    | _ :: _ =>
      if exportRC = 0 then
        match exportData with
        | [r] => mkTask r
        | _ => .error (.errorAddingNewTask exportStderr)
      else if exportRC = 127 then .error (.taskCommandNotFound exportStderr)
      else .error (.errorRunningTaskCommand exportStderr)
  else if addRes.returncode = 127 then .error (.taskCommandNotFound addRes.stderr)
  else .error (.errorRunningTaskCommand addRes.stderr)

/-- Membership test for an integer-valued raw id key. -/
def isIntId : Option (Int ⊕ String) → Bool
  | some (.inl _) => true
  | _ => false

/-- The records the loop of `get_all_tasks` does not skip. -/
def keptRecords (incl : Bool) (l : List RawRecord) : List RawRecord :=
  if incl then l else l.filter (fun r => decide (¬ r.status = some ("deleted")))

/-- Serialization of a date-or-verbatim-string attribute back to its raw
textual form. -/
def serializeDateVal : PyDateTime ⊕ String → String
  | .inl d => dtIso d
  | .inr s => s

/-- Serialization of a `TaskNote` back to a raw annotation mapping. -/
def serializeNote (n : TaskNote) : Annot :=
  Annot.mk n.description (some (dtIso n.entry))

/-- Modelled from the spec (claim C9): the source has no serializer, so this
follows the spec's words, writing each recognized attribute of a constructed
task back under its raw field name, datetimes in isoformat. The untracked
`wait` key is left absent. -/
def reserializeRecord (t : Task) : RawRecord :=
  RawRecord.mk (some t.description) t.project
    (t.annotations.map (fun l => l.map serializeNote)) t.priority t.urgency
    (t.start.map serializeDateVal) (t.end_.map serializeDateVal) t.status
    (t.entry.map dtIso) (t.modified.map dtIso) (t.due.map serializeDateVal)
    t.uuid t.recur t.rtype t.mask t.imask t.parent t.id none

/-- Equality of two raw records on every field the model tracks (all but the
unread `wait` key). -/
def eqOnTracked (a b : RawRecord) : Bool :=
  decide (a.description = b.description) && decide (a.project = b.project) &&
  decide (a.annotations = b.annotations) && decide (a.priority = b.priority) &&
  decide (a.urgency = b.urgency) && decide (a.start = b.start) &&
  decide (a.end_ = b.end_) && decide (a.status = b.status) &&
  decide (a.entry = b.entry) && decide (a.modified = b.modified) &&
  decide (a.due = b.due) && decide (a.uuid = b.uuid) &&
  decide (a.recur = b.recur) && decide (a.rtype = b.rtype) &&
  decide (a.mask = b.mask) && decide (a.imask = b.imask) &&
  decide (a.parent = b.parent) && decide (a.id = b.id)

/-- The round-trip property exactly as claim C9 states it: constructing a
task from the record and re-serializing its recognized fields yields a record
equal to the input on every tracked field. -/
def specRoundTrips (r : RawRecord) : Bool :=
  match mkTask r with
  | .error _ => false
  | .ok t => eqOnTracked (reserializeRecord t) r

/-- A pending record as the collaborator exports it. -/
def recPend : RawRecord :=
  { RawRecord.empty with
      description := some ("file taxes"),
      status := some ("pending"),
      uuid := some ("aa-11"),
      id := some (.inl 1),
      entry := some ("2024-01-01T00:00:00") }

/-- A completed record as the collaborator exports it: raw id 0. -/
def recComp : RawRecord :=
  { RawRecord.empty with
      description := some ("walk dog"),
      status := some ("completed"),
      uuid := some ("bb-22"),
      id := some (.inl 0),
      entry := some ("2024-01-01T00:00:00"),
      end_ := some ("2024-01-02T00:00:00") }

/-- A deleted record as the collaborator exports it: raw id 0. -/
def recDel : RawRecord :=
  { RawRecord.empty with
      description := some ("old chore"),
      status := some ("deleted"),
      uuid := some ("cc-33"),
      id := some (.inl 0),
      entry := some ("2024-01-01T00:00:00"),
      end_ := some ("2024-01-03T00:00:00") }

/-- A waiting record whose wait timestamp lies in the past. -/
def waitingRec : RawRecord :=
  { RawRecord.empty with
      description := some ("water plants"),
      status := some ("waiting"),
      wait := some ("2020-01-01T00:00:00"),
      uuid := some ("dd-44"),
      entry := some ("2019-12-31T08:00:00") }

/-- A record carrying only the required description. -/
def c4Rec : RawRecord :=
  { RawRecord.empty with description := some ("only a description") }

/-- A persisted record addressed only by uuid, as for a completed task whose
export omits the id key. -/
def c9Rec : RawRecord :=
  { RawRecord.empty with
      description := some ("x"),
      uuid := some ("ab-cd"),
      status := some ("pending") }

/-- The record the simulated re-fetch of the add protocol returns. -/
def rec42 : RawRecord :=
  { RawRecord.empty with
      description := some ("Buy milk"),
      status := some ("pending"),
      uuid := some ("ee-55"),
      id := some (.inl 42),
      entry := some ("2024-01-01T00:00:00"),
      due := some ("tomorrow") }

theorem digit_not_ws (c : Char) (h : c.isDigit = true) : c.isWhitespace = false := by
  simp only [Char.isDigit, ge_iff_le, Bool.and_eq_true, decide_eq_true_eq] at h
  simp only [Char.isWhitespace, Bool.or_eq_false_iff, decide_eq_false_iff_not]
  refine ⟨⟨⟨?_, ?_⟩, ?_⟩, ?_⟩ <;> rintro rfl <;> exact absurd h.1 (by decide)

theorem digit_ne_plus (c : Char) (h : c.isDigit = true) : ¬ c = '+' := by
  rintro rfl
  exact absurd h (by decide)

theorem digit_ne_minus (c : Char) (h : c.isDigit = true) : ¬ c = '-' := by
  rintro rfl
  exact absurd h (by decide)

theorem stripSign_digit (c : Char) (cs : List Char) (h : c.isDigit = true) :
    stripSign (c :: cs) = c :: cs := by
  unfold stripSign
  split
  · rename_i heq
    injection heq with h1 h2
    exact absurd h1 (digit_ne_plus c h)
  · rename_i heq
    injection heq with h1 h2
    exact absurd h1 (digit_ne_minus c h)
  · rfl

theorem dropWhile_ws_digits (l : List Char) (h : l.all Char.isDigit = true) :
    l.dropWhile Char.isWhitespace = l := by
  cases l with
  | nil => rfl
  | cons c cs =>
    have hc : c.isDigit = true := by
      simp only [List.all_cons, Bool.and_eq_true] at h
      exact h.1
    simp [List.dropWhile, digit_not_ws c hc]

theorem trimWs_digits (l : List Char) (h : l.all Char.isDigit = true) :
    trimWs l = l := by
  unfold trimWs
  rw [dropWhile_ws_digits l h]
  have hrev : l.reverse.all Char.isDigit = true := by
    simpa using h
  rw [dropWhile_ws_digits l.reverse hrev, List.reverse_reverse]

theorem pyIntParseable_of_digits (s : String) (hne : s.toList ≠ [])
    (h : s.toList.all Char.isDigit = true) : pyIntParseable s = true := by
  unfold pyIntParseable
  rw [trimWs_digits s.toList h]
  cases hl : s.toList with
  | nil => exact absurd hl hne
  | cons c cs =>
    have hc : c.isDigit = true := by
      rw [hl] at h
      simp only [List.all_cons, Bool.and_eq_true] at h
      exact h.1
    rw [stripSign_digit c cs hc]
    rw [hl] at h
    simp [h]

theorem pyOk_iff (r : RawRecord) : pyOk (mkTask r) = true ↔ mkTask r = .ok (okTask r) := by
  unfold pyOk okTask
  cases mkTask r <;> simp

/-- Characterization of every attribute of a successfully constructed task in
terms of the raw record. -/
theorem mkTask_ok_fields (r : RawRecord) (t : Task) (h : mkTask r = .ok t) :
    r.description = some t.description ∧
    t.project = r.project ∧
    t.priority = r.priority ∧
    t.urgency = r.urgency ∧
    t.status = r.status ∧
    t.uuid = r.uuid ∧
    t.recur = r.recur ∧
    t.rtype = r.rtype ∧
    t.mask = r.mask ∧
    t.imask = r.imask ∧
    t.parent = r.parent ∧
    t.due = parseDue r.due ∧
    t.id = resolveId r.id r.uuid ∧
    t.active = pyActive (resolveId r.id r.uuid) ∧
    parseDateField r.start = .ok t.start ∧
    parseDateField r.end_ = .ok t.end_ ∧
    parseStamp r.entry = .ok t.entry ∧
    parseStamp r.modified = .ok t.modified ∧
    mkAnnotations (resolveId r.id r.uuid) r.annotations = .ok t.annotations := by
  unfold mkTask at h
  split at h
  · exact Except.noConfusion h
  rename_i desc hdesc
  split at h
  · exact Except.noConfusion h
  rename_i startV hstart
  split at h
  · exact Except.noConfusion h
  rename_i endV hend
  split at h
  · exact Except.noConfusion h
  rename_i entryV hentry
  split at h
  · exact Except.noConfusion h
  rename_i modV hmod
  split at h
  · exact Except.noConfusion h
  rename_i annV hann
  injection h with h'
  subst h'
  exact ⟨hdesc, rfl, rfl, rfl, rfl, rfl, rfl, rfl, rfl, rfl, rfl, rfl, rfl, rfl,
    hstart, hend, hentry, hmod, hann⟩

theorem map_filter_congr {α β : Type} (f : α → β) (p : α → Bool) (q : β → Bool)
    (l : List α) (h : ∀ a ∈ l, q (f a) = p a) :
    (l.filter p).map f = (l.map f).filter q := by
  induction l with
  | nil => rfl
  | cons a l ih =>
    have ha := h a (by simp)
    have ih' := ih (fun a ha => h a (by simp [ha]))
    cases hpa : p a <;> simp [List.filter, hpa, ha, ih']

theorem keptRecords_sub (incl : Bool) (l : List RawRecord) :
    ∀ r ∈ keptRecords incl l, r ∈ l := by
  intro r hr
  unfold keptRecords at hr
  cases incl <;> simp_all [List.mem_filter]

/-- What the loop of `get_all_tasks` returns when every non-skipped record
constructs: `all_tasks` is the non-skipped records in order, and
`working_set` is the subsequence of those whose raw id is not the integer 0. -/
theorem gatLoop_ok (incl : Bool) (l : List RawRecord)
    (h : ∀ r ∈ keptRecords incl l, pyOk (mkTask r) = true) :
    gatLoop incl l = .ok
      ((keptRecords incl l).map okTask,
       ((keptRecords incl l).filter (fun r => decide (¬ r.id = some (.inl 0)))).map okTask) := by
  induction l with
  | nil => cases incl <;> simp [gatLoop, keptRecords]
  | cons r rest ih =>
    by_cases hskip : incl = false ∧ r.status = some ("deleted")
    · have hkept : keptRecords incl (r :: rest) = keptRecords incl rest := by
        unfold keptRecords
        rcases hskip with ⟨h1, h2⟩
        subst h1
        simp [List.filter, h2]
      rw [hkept] at h ⊢
      have ih' := ih h
      simpa [gatLoop, hskip] using ih'
    · have hkept : keptRecords incl (r :: rest) = r :: keptRecords incl rest := by
        unfold keptRecords
        cases hincl : incl with
        | true => rfl
        | false =>
          have : ¬ r.status = some ("deleted") := fun hc => hskip ⟨hincl, hc⟩
          simp [List.filter, this]
      rw [hkept] at h ⊢
      have hr : mkTask r = .ok (okTask r) := (pyOk_iff r).mp (h r (by simp))
      have ih' := ih (fun a ha => h a (by simp [ha]))
      by_cases hid : r.id = some (.inl 0)
      · simp [gatLoop, hskip, hr, ih', List.filter, hid]
      · simp [gatLoop, hskip, hr, ih', List.filter, hid]

/-- C1: the claim says every nonzero exit of complete/delete other than 127
and 1 raises ErrorRunningTaskCommand (the spec's CommandExecutionError), so
that no nonzero exit returns True. The code classifies 0, 127 and 1 as
claimed, but any other nonzero exit (here 2) falls through to `return True`:
the error branch for the generic failure is missing from both methods. -/
theorem c1_complete_delete_exit_classification :
    complete_task 0 ("") = .ok true ∧
    complete_task 127 ("e1") = .error (.taskCommandNotFound ("e1")) ∧
    complete_task 1 ("e2") = .error (.noTaskGiven ("e2")) ∧
    delete_task 0 ("") = .ok true ∧
    delete_task 127 ("e1") = .error (.taskCommandNotFound ("e1")) ∧
    delete_task 1 ("e2") = .error (.noTaskGiven ("e2")) ∧
    complete_task 2 ("boom") = .ok true ∧
    delete_task 2 ("boom") = .ok true :=
  ⟨rfl, rfl, rfl, rfl, rfl, rfl, rfl, rfl⟩

/-- C3: the claim (and the spec) say an add-phase success output without
digits raises ErrorAddingNewTask (the spec's AddTaskError). In the code
`re.findall` yields the empty list, so `task_id[0]` raises IndexError, which
the surrounding `except ValueError` does not catch: the failure escapes as an
uncaught IndexError, never as ErrorAddingNewTask, whatever the re-fetch
arguments would have been. -/
theorem c3_add_no_digits_raises_index_error :
    digitRuns ("Created task.") = [] ∧
    (∀ rc data sderr,
      task_add (ProcResult.mk 0 ("Created task.") ("add err")) rc data sderr =
        .error .indexError) :=
  ⟨rfl, fun _ _ _ => rfl⟩

/-- C5: the claim (and the code's own status docstring) say a reader must
turn a waiting record whose wait timestamp has passed into a pending one with
the wait field cleared. `Task.__init__` performs no such normalization: it
never reads the wait key at all (construction is unchanged under any wait
value) and stores the status verbatim, so the record with a 2020 wait
timestamp still reads as waiting. -/
theorem c5_no_waiting_normalization :
    (∀ r w, mkTask { r with wait := w } = mkTask r) ∧
    mkTask waitingRec = .ok (okTask waitingRec) ∧
    (okTask waitingRec).status = some ("waiting") :=
  ⟨fun _ _ => rfl, rfl, rfl⟩

/-- C6: the claim says a zero-record export yields the empty sequence and a
fetch over it the empty task list. The code returns None from task_export
when fewer than one record was parsed, and get_all_tasks then evaluates
`len(None)`, raising TypeError instead of returning an empty list. -/
theorem c6_empty_export_type_error :
    task_export 0 [] ("") = .ok none ∧
    get_all_tasks 0 [] ("") false = .error .typeError ∧
    get_all_tasks 0 [] ("") true = .error .typeError :=
  ⟨rfl, rfl, rfl⟩

/-- C4 counterexample: on the mapping holding only a description,
construction succeeds but reading the omitted entry or modified attribute
raises AttributeError instead of yielding the unset sentinel. -/
theorem c4_counterexample :
    pyOk (mkTask c4Rec) = true ∧
    getattrEntry (okTask c4Rec) = .error .attributeError ∧
    getattrModified (okTask c4Rec) = .error .attributeError :=
  ⟨rfl, rfl, rfl⟩

/-- C10: a raw id equal to the integer 0 is treated by construction exactly
like an absent id (the whole construction is unchanged), so the resolved id
is the uuid and, a uuid not being integer-parseable, active is false; the
working-set builder of get_all_tasks, by contrast, admits any non-skipped
record whose raw id differs from the integer 0, including one with no id key
at all. -/
theorem c10_zero_id_encoding (r : RawRecord) :
    (∀ q : RawRecord, mkTask { q with id := some (.inl 0) } = mkTask { q with id := none }) ∧
    (∀ t u, mkTask r = .ok t → r.id = some (.inl 0) → r.uuid = some u →
      pyIntParseable u = false → t.id = some (.inr u) ∧ t.active = false) ∧
    (∀ incl t, mkTask r = .ok t → ¬ (incl = false ∧ r.status = some ("deleted")) →
      gatLoop incl [r] = .ok ([t], if r.id = some (.inl 0) then [] else [t])) := by
  refine ⟨fun q => rfl, ?_, ?_⟩
  · intro t u h hid huuid hpar
    obtain ⟨-, -, -, -, -, -, -, -, -, -, -, -, hid', hact, -, -, -, -, -⟩ :=
      mkTask_ok_fields r t h
    rw [hid, huuid] at hid' hact
    refine ⟨?_, ?_⟩
    · rw [hid']
      simp [resolveId, pyFalsyId]
    · rw [hact]
      simp [resolveId, pyFalsyId, pyActive, hpar]
  · intro incl t h hns
    simp only [gatLoop, if_neg hns, h]
    split <;> rename_i hc <;> simp [hc]

/-- C7: a record whose raw id is a positive integer, given either as an
integer or as a digit string of positive value, constructs with that id and
active true; a record with no id key and a uuid that does not parse as an
integer constructs with the uuid as id and active false; in general the id
resolution prefers a truthy supplied identifier, falls back to the uuid, and
active holds exactly when the resolved id is integer-parseable. -/
theorem c7_id_resolution (r : RawRecord) (t : Task) (h : mkTask r = .ok t) :
    (∀ n : Int, r.id = some (.inl n) → 0 < n →
      t.id = some (.inl n) ∧ t.active = true) ∧
    (∀ s : String, r.id = some (.inr s) → s.toList ≠ [] →
      s.toList.all Char.isDigit = true → 0 < digitsVal s.toList →
      t.id = some (.inr s) ∧ t.active = true) ∧
    (r.id = none → ∀ u, r.uuid = some u → pyIntParseable u = false →
      t.id = some (.inr u) ∧ t.active = false) ∧
    t.id = resolveId r.id r.uuid ∧
    t.active = pyActive t.id := by
  obtain ⟨-, -, -, -, -, -, -, -, -, -, -, -, hid', hact, -, -, -, -, -⟩ :=
    mkTask_ok_fields r t h
  refine ⟨?_, ?_, ?_, hid', by rw [hact, hid']⟩
  · intro n hid hpos
    rw [hid] at hid' hact
    have hfal : pyFalsyId (some (Sum.inl n)) = false := by
      simp [pyFalsyId]
      omega
    rw [hid', hact]
    simp [resolveId, hfal, pyActive]
  · intro s hid hne hdig hpos
    rw [hid] at hid' hact
    have hs : ¬ s = ("") := by
      intro hc
      subst hc
      exact hne rfl
    have hfal : pyFalsyId (some (Sum.inr s)) = false := by
      simp [pyFalsyId, hs]
    rw [hid', hact]
    simp [resolveId, hfal, pyActive, pyIntParseable_of_digits s hne hdig]
  · intro hid u huuid hpar
    rw [hid, huuid] at hid' hact
    rw [hid', hact]
    simp [resolveId, pyFalsyId, pyActive, hpar]

/-- C7 witness: the integer id 1 of the concrete pending record, the digit
string id of its string-keyed variant, and the uuid fallback of the concrete
uuid-only record. -/
theorem c7_id_resolution_witness :
    ((okTask recPend).id = some (.inl 1) ∧ (okTask recPend).active = true) ∧
    ((okTask { c9Rec with id := some (.inr ("42")) }).id = some (.inr ("42")) ∧
      (okTask { c9Rec with id := some (.inr ("42")) }).active = true) ∧
    ((okTask c9Rec).id = some (.inr ("ab-cd")) ∧ (okTask c9Rec).active = false) :=
  ⟨(c7_id_resolution recPend (okTask recPend) rfl).1 1 rfl (by decide),
   (c7_id_resolution { c9Rec with id := some (.inr ("42")) } _ rfl).2.1 ("42")
     rfl (by decide) (by decide) (by decide),
   (c7_id_resolution c9Rec (okTask c9Rec) rfl).2.2.1 rfl ("ab-cd") rfl (by decide)⟩

/-- C8: once the add protocol reaches the re-fetch phase (add exited 0 with a
digit run in its output, the export exited 0), a one-record export yields the
task constructed from that record, and an export of zero or several records
raises ErrorAddingNewTask (the spec's AddTaskError) with the export's error
stream. -/
theorem c8_refetch_cardinality (addRes : ProcResult) (exportData : List RawRecord)
    (exportStderr : String) (h0 : addRes.returncode = 0)
    (hdig : digitRuns addRes.stdout ≠ []) :
    (∀ r, exportData = [r] → task_add addRes 0 exportData exportStderr = mkTask r) ∧
    (exportData.length ≠ 1 → task_add addRes 0 exportData exportStderr =
      .error (.errorAddingNewTask exportStderr)) := by
  constructor
  · rintro r rfl
    unfold task_add
    rw [if_pos h0]
    cases hd : digitRuns addRes.stdout with
    | nil => exact absurd hd hdig
    | cons a l => simp
  · intro hlen
    unfold task_add
    rw [if_pos h0]
    cases hd : digitRuns addRes.stdout with
    | nil => exact absurd hd hdig
    | cons a l =>
      cases exportData with
      | nil => simp
      | cons x xs =>
        cases xs with
        | nil => exact absurd rfl hlen
        | cons y ys => simp

/-- C8 witness: the simulated add of the spec's test, exiting 0 with stdout
containing the digits 42 and a one-record re-fetch export, returns the task
built from that record; the same add with an empty re-fetch export raises
ErrorAddingNewTask. -/
theorem c8_refetch_cardinality_witness :
    task_add (ProcResult.mk 0 ("Created task 42.") ("")) 0 [rec42] ("") = mkTask rec42 ∧
    task_add (ProcResult.mk 0 ("Created task 42.") ("")) 0 [] ("x") =
      .error (.errorAddingNewTask ("x")) :=
  ⟨(c8_refetch_cardinality (ProcResult.mk 0 ("Created task 42.") ("")) [rec42] ("")
      rfl (by decide)).1 rec42 rfl,
   (c8_refetch_cardinality (ProcResult.mk 0 ("Created task 42.") ("")) [] ("x")
      rfl (by decide)).2 (by decide)⟩

/-- C10 witness: the concrete completed record, exported with raw id 0 and
uuid bb-22, resolves its id to the uuid with active false, and is kept out of
the working set while appearing in the returned task list. -/
theorem c10_zero_id_encoding_witness :
    ((okTask recComp).id = some (.inr ("bb-22")) ∧ (okTask recComp).active = false) ∧
    gatLoop true [recComp] = .ok ([okTask recComp], []) := by
  refine ⟨(c10_zero_id_encoding recComp).2.1 (okTask recComp) ("bb-22") rfl rfl rfl
    (by decide), ?_⟩
  have h := (c10_zero_id_encoding recComp).2.2 true (okTask recComp) rfl (by simp)
  simpa using h

/-- C4 amended: construction always succeeds on a mapping holding only a
description; on any successful construction each omitted optional field among
project, priority, urgency, start, end, status, due, uuid, recur, rtype,
mask, imask, parent and annotations reads as the None sentinel; an omitted id
reads as the uuid value instead; but an omitted entry or modified leaves the
attribute unassigned, so reading it raises AttributeError. -/
theorem c4_optional_fields_amended :
    (∀ d : String, mkTask { RawRecord.empty with description := some d } =
      .ok (okTask { RawRecord.empty with description := some d })) ∧
    (∀ r t, mkTask r = .ok t →
      (r.project = none → t.project = none) ∧
      (r.priority = none → t.priority = none) ∧
      (r.urgency = none → t.urgency = none) ∧
      (r.start = none → t.start = none) ∧
      (r.end_ = none → t.end_ = none) ∧
      (r.status = none → t.status = none) ∧
      (r.due = none → t.due = none) ∧
      (r.uuid = none → t.uuid = none) ∧
      (r.recur = none → t.recur = none) ∧
      (r.rtype = none → t.rtype = none) ∧
      (r.mask = none → t.mask = none) ∧
      (r.imask = none → t.imask = none) ∧
      (r.parent = none → t.parent = none) ∧
      (r.annotations = none → t.annotations = none) ∧
      (r.id = none → t.id = r.uuid.map .inr) ∧
      (r.entry = none → getattrEntry t = .error .attributeError) ∧
      (r.modified = none → getattrModified t = .error .attributeError)) := by
  refine ⟨fun d => rfl, ?_⟩
  intro r t h
  obtain ⟨hd, hproj, hpri, hurg, hstat, huu, hrec, hrty, hmask, himask, hpar, hdue,
    hid, hact, hstart, hend, hent, hmod, hann⟩ := mkTask_ok_fields r t h
  refine ⟨fun hn => hproj.trans hn, fun hn => hpri.trans hn, fun hn => hurg.trans hn,
    ?_, ?_, fun hn => hstat.trans hn, ?_, fun hn => huu.trans hn,
    fun hn => hrec.trans hn, fun hn => hrty.trans hn, fun hn => hmask.trans hn,
    fun hn => himask.trans hn, fun hn => hpar.trans hn, ?_, ?_, ?_, ?_⟩
  · intro hn
    rw [hn] at hstart
    simpa [parseDateField] using hstart.symm
  · intro hn
    rw [hn] at hend
    simpa [parseDateField] using hend.symm
  · intro hn
    rw [hn] at hdue
    simpa [parseDue] using hdue
  · intro hn
    rw [hn] at hann
    simpa [mkAnnotations] using hann.symm
  · intro hn
    rw [hn] at hid
    simp [hid, resolveId, pyFalsyId]
  · intro hn
    rw [hn] at hent
    have : t.entry = none := by simpa [parseStamp] using hent.symm
    simp [getattrEntry, this]
  · intro hn
    rw [hn] at hmod
    have : t.modified = none := by simpa [parseStamp] using hmod.symm
    simp [getattrModified, this]

/-- C4 amended witness: on the description-only record every kept field reads
as None, the id resolves to None, and reading entry raises AttributeError. -/
theorem c4_optional_fields_amended_witness :
    mkTask c4Rec = .ok (okTask c4Rec) ∧
    (okTask c4Rec).project = none ∧
    (okTask c4Rec).start = none ∧
    (okTask c4Rec).id = none ∧
    getattrEntry (okTask c4Rec) = .error .attributeError := by
  have h := (c4_optional_fields_amended).2 c4Rec (okTask c4Rec) rfl
  exact ⟨rfl, h.1 rfl, h.2.2.2.1 rfl, by simpa using h.2.2.2.2.2.2.2.2.2.2.2.2.2.2.1 rfl,
    h.2.2.2.2.2.2.2.2.2.2.2.2.2.2.2.1 rfl⟩

/-- C9 counterexample: the round-trip as claimed fails on the concrete record
addressed only by uuid: the constructed task's id attribute is the uuid, so
re-serializing the recognized fields writes the uuid under the id field name
while the input record had no id at all. -/
theorem c9_counterexample : specRoundTrips c9Rec = false := by decide

/-- C9 amended: re-serializing a constructed task recovers the input record
verbatim on description and on every field the model stores raw (project,
priority, urgency, status, uuid, recur, rtype, mask, imask, parent), and on
id whenever the raw id was present and truthy; the date fields are stored
re-parsed, annotations are stored wrapped into TaskNote values, and an absent
or falsy id falls back to the uuid, so those fields round-trip only up to
that conversion. -/
theorem c9_roundtrip_amended (r : RawRecord) (t : Task) (h : mkTask r = .ok t) :
    (reserializeRecord t).description = r.description ∧
    (reserializeRecord t).project = r.project ∧
    (reserializeRecord t).priority = r.priority ∧
    (reserializeRecord t).urgency = r.urgency ∧
    (reserializeRecord t).status = r.status ∧
    (reserializeRecord t).uuid = r.uuid ∧
    (reserializeRecord t).recur = r.recur ∧
    (reserializeRecord t).rtype = r.rtype ∧
    (reserializeRecord t).mask = r.mask ∧
    (reserializeRecord t).imask = r.imask ∧
    (reserializeRecord t).parent = r.parent ∧
    (∀ v, r.id = some v → pyFalsyId (some v) = false → (reserializeRecord t).id = r.id) := by
  obtain ⟨hd, hproj, hpri, hurg, hstat, huu, hrec, hrty, hmask, himask, hpar, hdue,
    hid, hact, hstart, hend, hent, hmod, hann⟩ := mkTask_ok_fields r t h
  refine ⟨hd.symm, hproj, hpri, hurg, hstat, huu, hrec, hrty, hmask, himask, hpar, ?_⟩
  intro v hv hfal
  show t.id = r.id
  rw [hid, hv, resolveId, hfal]
  simp

/-- C9 amended witness: the pending record round-trips on its raw fields and
its truthy integer id. -/
theorem c9_roundtrip_amended_witness :
    (reserializeRecord (okTask recPend)).description = recPend.description ∧
    (reserializeRecord (okTask recPend)).status = recPend.status ∧
    (reserializeRecord (okTask recPend)).uuid = recPend.uuid ∧
    (reserializeRecord (okTask recPend)).id = recPend.id := by
  have h := c9_roundtrip_amended recPend (okTask recPend) rfl
  exact ⟨h.1, h.2.2.2.2.1, h.2.2.2.2.2.1, h.2.2.2.2.2.2.2.2.2.2.2 (.inl 1) rfl (by decide)⟩

/-- Under the collaborator's export encoding (integer id key, uuid not
integer-parseable when the id is 0), a constructed task is active exactly
when its raw id differs from the integer 0, which is the working-set guard of
get_all_tasks. -/
theorem active_eq_guard (r : RawRecord) (hok : pyOk (mkTask r) = true)
    (hid : isIntId r.id = true)
    (huuid : r.id = some (.inl 0) → ∀ u ∈ r.uuid, pyIntParseable u = false) :
    (okTask r).active = decide (¬ r.id = some (.inl 0)) := by
  have h := (pyOk_iff r).mp hok
  obtain ⟨-, -, -, -, -, -, -, -, -, -, -, -, -, hact, -, -, -, -, -⟩ :=
    mkTask_ok_fields r (okTask r) h
  cases hru : r.id with
  | none => simp [isIntId, hru] at hid
  | some v =>
    cases v with
    | inr s => simp [isIntId, hru] at hid
    | inl n =>
      by_cases hn : n = 0
      · subst hn
        rw [hact, hru]
        have hres : resolveId (some (.inl 0)) r.uuid = r.uuid.map .inr := by
          simp [resolveId, pyFalsyId]
        rw [hres]
        cases huu : r.uuid with
        | none => simp [pyActive]
        | some u =>
          have hu := huuid (by rw [hru]) u (by rw [huu]; rfl)
          simp [pyActive, hu]
      · rw [hact, hru]
        have hfal : pyFalsyId (some (Sum.inl n)) = false := by
          simp [pyFalsyId]
          omega
        simp [resolveId, hfal, pyActive, hn]

/-- C2: under the collaborator's export encoding (a nonempty export where
every record constructs, carries an integer id key, deleted records carry id
0, and a record with id 0 has no integer-parseable uuid), fetching without
deleted records returns exactly the non-deleted records as tasks and a
working set that is exactly the active tasks among them; fetching with
deleted records returns every record as a task, with a working set still
exactly the active tasks, which never include a deleted record. -/
theorem c2_fetch_all (l : List RawRecord) (hne : l ≠ [])
    (hok : ∀ r ∈ l, pyOk (mkTask r) = true)
    (hid : ∀ r ∈ l, isIntId r.id = true)
    (hdel : ∀ r ∈ l, r.status = some ("deleted") → r.id = some (.inl 0))
    (huuid : ∀ r ∈ l, r.id = some (.inl 0) → ∀ u ∈ r.uuid, pyIntParseable u = false) :
    (get_all_tasks 0 l ("") false = .ok
      ((l.filter (fun r => decide (¬ r.status = some ("deleted")))).map okTask,
       ((l.filter (fun r => decide (¬ r.status = some ("deleted")))).map okTask).filter
         (fun t => t.active))) ∧
    (get_all_tasks 0 l ("") true = .ok
      (l.map okTask, (l.map okTask).filter (fun t => t.active))) ∧
    (∀ allT ws, get_all_tasks 0 l ("") true = .ok (allT, ws) →
      ∀ t ∈ ws, ¬ t.status = some ("deleted")) := by
  have hlen : l.length ≥ 1 := by
    cases l with
    | nil => exact absurd rfl hne
    | cons a as => simp
  have hexp : task_export 0 l ("") = .ok (some l) := by
    unfold task_export
    rw [if_pos (show (0 : Int) = 0 from rfl), if_pos hlen]
  have hguard : ∀ r ∈ l, (fun t : Task => t.active) (okTask r) =
      (fun r : RawRecord => decide (¬ r.id = some (.inl 0))) r := by
    intro r hr
    exact active_eq_guard r (hok r hr) (hid r hr) (huuid r hr)
  have hkept_t : keptRecords true l = l := rfl
  have hkept_f : keptRecords false l =
      l.filter (fun r => decide (¬ r.status = some ("deleted"))) := rfl
  have hloop_f := gatLoop_ok false l
    (fun r hr => hok r (keptRecords_sub false l r hr))
  have hloop_t := gatLoop_ok true l
    (fun r hr => hok r (keptRecords_sub true l r hr))
  rw [hkept_f] at hloop_f
  rw [hkept_t] at hloop_t
  have hfilter_f := map_filter_congr okTask
    (fun r : RawRecord => decide (¬ r.id = some (.inl 0))) (fun t : Task => t.active)
    (l.filter (fun r => decide (¬ r.status = some ("deleted"))))
    (fun r hr => hguard r (List.mem_of_mem_filter hr))
  have hfilter_t := map_filter_congr okTask
    (fun r : RawRecord => decide (¬ r.id = some (.inl 0))) (fun t : Task => t.active)
    l hguard
  have hgat_f : get_all_tasks 0 l ("") false = gatLoop false l := by
    unfold get_all_tasks
    rw [hexp]
  have hgat_t : get_all_tasks 0 l ("") true = gatLoop true l := by
    unfold get_all_tasks
    rw [hexp]
  refine ⟨?_, ?_, ?_⟩
  · rw [hgat_f, hloop_f, hfilter_f]
  · rw [hgat_t, hloop_t, hfilter_t]
  · intro allT ws heq t ht
    rw [hgat_t, hloop_t, hfilter_t] at heq
    injection heq with heq'
    injection heq' with h1 h2
    subst h2
    rw [List.mem_filter] at ht
    obtain ⟨htmem, htact⟩ := ht
    rw [List.mem_map] at htmem
    obtain ⟨r, hrl, hrt⟩ := htmem
    subst hrt
    intro hstat
    have hmk := (pyOk_iff r).mp (hok r hrl)
    obtain ⟨-, -, -, -, hstat', -, -, -, -, -, -, -, -, -, -, -, -, -, -⟩ :=
      mkTask_ok_fields r (okTask r) hmk
    have hrdel : r.status = some ("deleted") := by rw [← hstat', hstat]
    have hr0 : r.id = some (.inl 0) := hdel r hrl hrdel
    have := active_eq_guard r (hok r hrl) (hid r hrl) (huuid r hrl)
    rw [hr0] at this
    simp at this
    rw [this] at htact
    exact Bool.false_ne_true htact

/-- C2 witness: the concrete mixed export of one pending, one completed and
one deleted record. -/
theorem c2_fetch_all_witness :
    get_all_tasks 0 [recPend, recComp, recDel] ("") false =
      .ok ([okTask recPend, okTask recComp], [okTask recPend]) ∧
    get_all_tasks 0 [recPend, recComp, recDel] ("") true =
      .ok ([okTask recPend, okTask recComp, okTask recDel], [okTask recPend]) := by
  have h := c2_fetch_all [recPend, recComp, recDel] (by decide) (by decide) (by decide)
    (by decide) (by decide)
  refine ⟨?_, ?_⟩
  · rw [h.1]
    rfl
  · rw [h.2.1]
    rfl

end Taskl
